import Mathlib

set_option linter.unusedVariables false

/-!
Shallow embedding of the OTTER course-assignment repository
(`src/projects/Week3-Starter/src/main.cpp`, which holds a Week-3 and a
Week-5 `main`, and `src/unnamed/part_000`, which holds a fragment shader
and another Week-3-style `main`).

Native-API effects (logging, GL calls, GLFW calls) are modelled as events
and explicit state; machine floats used only for geometry/colour data are
modelled as rationals where exact values matter and as reals where
trigonometry is involved.
-/

namespace Otter

/-! ### OpenGL enum constants (values from the GL headers) -/

def GL_DEBUG_SOURCE_API : Nat := 0x8246
def GL_DEBUG_SOURCE_WINDOW_SYSTEM : Nat := 0x8247
def GL_DEBUG_SOURCE_SHADER_COMPILER : Nat := 0x8248
def GL_DEBUG_SOURCE_THIRD_PARTY : Nat := 0x8249
def GL_DEBUG_SOURCE_APPLICATION : Nat := 0x824A
def GL_DEBUG_SOURCE_OTHER : Nat := 0x824B

def GL_DEBUG_SEVERITY_HIGH : Nat := 0x9146
def GL_DEBUG_SEVERITY_MEDIUM : Nat := 0x9147
def GL_DEBUG_SEVERITY_LOW : Nat := 0x9148
def GL_DEBUG_SEVERITY_NOTIFICATION : Nat := 0x826B

/-! ### The GL debug callback (`GlDebugMessage` in both translation units) -/

/-- A log record produced through the toolkit logger: the macro
`LOG_INFO("[{}] {}", sourceTxt, message)` and friends emit a level, the
bracketed source tag, and the message text. -/
inductive LogEvent where
  | info (tag message : String)
  | warn (tag message : String)
  | error (tag message : String)
deriving DecidableEq, Repr

/-- The first `switch (source)` of `GlDebugMessage`: picks the bracketed
source tag; `GL_DEBUG_SOURCE_OTHER` shares the `default` arm. -/
def sourceTxtOf (source : Nat) : String :=
  if source = GL_DEBUG_SOURCE_API then "DEBUG"
  else if source = GL_DEBUG_SOURCE_WINDOW_SYSTEM then "WINDOW"
  else if source = GL_DEBUG_SOURCE_SHADER_COMPILER then "SHADER"
  else if source = GL_DEBUG_SOURCE_THIRD_PARTY then "THIRD PARTY"
  else if source = GL_DEBUG_SOURCE_APPLICATION then "APP"
  else "OTHER"

/-- Embeds `GlDebugMessage(source, type, id, severity, length, message, userParam)`:
computes the source tag, then switches on `severity`; the notification arm
is compiled in because `LOG_GL_NOTIFICATIONS` is defined, and the `default`
arm logs nothing.  The `type`, `id`, `length` and `userParam` parameters
are accepted (as in the C signature) but unused by the body. -/
def GlDebugMessage (source ty id severity len : Nat) (message : String)
    (userParam : Option Nat) : List LogEvent :=
  let sourceTxt := sourceTxtOf source
  if severity = GL_DEBUG_SEVERITY_LOW then [LogEvent.info sourceTxt message]
  else if severity = GL_DEBUG_SEVERITY_MEDIUM then [LogEvent.warn sourceTxt message]
  else if severity = GL_DEBUG_SEVERITY_HIGH then [LogEvent.error sourceTxt message]
  else if severity = GL_DEBUG_SEVERITY_NOTIFICATION then [LogEvent.info sourceTxt message]
  else []

/-! ### Globals and the GLFW window-resize callback -/

/-- The file-scope globals of each translation unit: the window pointer
(`none` models a null `GLFWwindow*`), the current window size, and the
window title. -/
structure Globals where
  window : Option Nat
  windowSize : Int × Int
  windowTitle : String
deriving DecidableEq, Repr

/-- Globals at program start: `window` is a zero-initialized null pointer,
`windowSize = ivec2(800, 800)`, and the title string per translation unit. -/
def initialGlobals (title : String) : Globals :=
  { window := none, windowSize := (800, 800), windowTitle := title }

/-- State visible to `GlfwWindowResizedCallback`: the globals plus the GL
viewport rectangle set through `glViewport`. -/
structure CallbackState where
  globals : Globals
  viewport : Int × Int × Int × Int
deriving DecidableEq, Repr

/-- Embeds `GlfwWindowResizedCallback(window, width, height)`: calls
`glViewport(0, 0, width, height)` and assigns
`windowSize = ivec2(width, height)`. -/
def GlfwWindowResizedCallback (s : CallbackState) (width height : Int) :
    CallbackState :=
  { globals := { s.globals with windowSize := (width, height) },
    viewport := (0, 0, width, height) }

/-! ### GLFW / GLAD initialization -/

/-- The host environment a run of `main` is exposed to: whether `glfwInit`
succeeds, the pointer `glfwCreateWindow` returns (`none` = null), and
whether `gladLoadGLLoader` returns nonzero. -/
structure Env where
  glfwInitOk : Bool
  windowHandle : Option Nat
  gladOk : Bool
deriving DecidableEq, Repr

/-- Embeds `initGLFW()`: returns `false` if `glfwInit() == GLFW_FALSE`; otherwise
stores whatever `glfwCreateWindow` returned (possibly null) in the global
`window`, makes the context current, installs the resize callback, and
returns `true`. -/
def initGLFW (env : Env) (g : Globals) : Bool × Globals :=
  if env.glfwInitOk = false then (false, g)
  else (true, { g with window := env.windowHandle })

/-- Embeds `initGLAD()`: returns `false` exactly when
`gladLoadGLLoader(glfwGetProcAddress) == 0`. -/
def initGLAD (env : Env) : Bool :=
  if env.gladOk = false then false else true

/-! ### Buffer wrappers needed by the mains -/

/-- Modelled from the spec: the `IndexBuffer` class is one of the "buffer
wrappers" that "map near 1:1 onto a handful of graphics-API calls"; its
implementation is not under `src/`.  `LoadData(data, count)` uploads the
index data and records the element count; `GetElementCount()` returns the
recorded count. -/
structure IndexBuffer where
  data : List Nat
  elementCount : Nat
deriving DecidableEq, Repr

/-- Modelled from the spec: `LoadData` stores the indices and the count the
caller passed. -/
def IndexBuffer.LoadData (indices : List Nat) (count : Nat) : IndexBuffer :=
  { data := indices, elementCount := count }

/-- Modelled from the spec: `GetElementCount` returns the count previously
passed to `LoadData`. -/
def IndexBuffer.GetElementCount (b : IndexBuffer) : Nat :=
  b.elementCount

/-- The hard-coded index array `{3, 0, 1, 3, 1, 2}` shared by the Week-3
main and `part_000` (named `indices` resp. `indices1` there). -/
def quadIndices : List Nat := [3, 0, 1, 3, 1, 2]

/-- The buffer `interleaved_ibo` of the Week-3 main: `LoadData(indices, 3 * 2)`. -/
def w3_interleaved_ibo : IndexBuffer := IndexBuffer.LoadData quadIndices (3 * 2)

/-- The buffer `interleaved_ibo` of `part_000`: `LoadData(indices, 3 * 2)`. -/
def p0_interleaved_ibo : IndexBuffer := IndexBuffer.LoadData quadIndices (3 * 2)

/-- The buffer `interleaved_ibo1` of `part_000`: `LoadData(indices1, 3 * 2)`. -/
def p0_interleaved_ibo1 : IndexBuffer := IndexBuffer.LoadData quadIndices (3 * 2)

/-! ### Observable events of a run of `main` -/

/-- Kinds of shader parts loaded with `LoadShaderPartFromFile`. -/
inductive ShaderPartType where
  | Vertex
  | Fragment
deriving DecidableEq, Repr

/-- Observable steps a `main` performs, in program order. -/
inductive Event where
  | loggerStart
  | glfwInitialized
  | gladInitialized
  | vertexLoad (count : Nat)
  | indexLoad (indices : List Nat) (count : Nat)
  | objLoad (file : String)
  | shaderPart (t : ShaderPartType)
  | shaderLink
  | drawArrays (count : Nat)
  | drawElements (count : Nat)
  | vaoDraw
  | swapBuffers
  | loggerStop
deriving DecidableEq, Repr

/-- Phase of an event for the spec's claimed ordering: initialization,
geometry upload, shader setup, render loop, shutdown. -/
def phaseOf : Event → Nat
  | .loggerStart => 0
  | .glfwInitialized => 0
  | .gladInitialized => 0
  | .vertexLoad _ => 1
  | .indexLoad _ _ => 1
  | .objLoad _ => 1
  | .shaderPart _ => 2
  | .shaderLink => 2
  | .drawArrays _ => 3
  | .drawElements _ => 3
  | .vaoDraw => 3
  | .swapBuffers => 3
  | .loggerStop => 4

/-- Events that belong to the steps after initialization: geometry upload,
shader setup, or the render loop. -/
def isLaterStep (e : Event) : Bool :=
  decide (phaseOf e = 1) || decide (phaseOf e = 2) || decide (phaseOf e = 3)

/-- The count argument of a `glDrawElements` call, if the event is one. -/
def drawElementsCount : Event → Option Nat
  | .drawElements n => some n
  | _ => none

/-! ### The render loop -/

/-- The loop `while (!glfwWindowShouldClose(window))` over a body, run with
explicit fuel: `sc i` is the should-close flag read at the top of
iteration `i`.  Returns the events of the executed iterations, and
`some k` when the loop exited after exactly `k` iterations within the
fuel, `none` when the fuel ran out first. -/
def runLoop (body : List Event) (sc : Nat → Bool) :
    Nat → Nat → List Event × Option Nat
  | _, 0 => ([], none)
  | i, fuel + 1 =>
    if sc i then ([], some 0)
    else
      let rest := runLoop body sc (i + 1) fuel
      (body ++ rest.1, rest.2.map (· + 1))

/-! ### The three mains as trace-producing programs -/

/-- Result of running a `main`: the event trace, the exit code (`none`
while the render loop is still running when the fuel ends), and the final
globals. -/
structure MainResult where
  trace : List Event
  exitCode : Option Nat
  globals : Globals
deriving DecidableEq, Repr

/-- Per-iteration events of the Week-3 game loop: `glDrawArrays(.., 0, 3)`,
then `glDrawElements` with `interleaved_ibo->GetElementCount()`, then
`glfwSwapBuffers`. -/
def w3LoopBody : List Event :=
  [Event.drawArrays 3,
   Event.drawElements w3_interleaved_ibo.GetElementCount,
   Event.swapBuffers]

/-- Setup events of the Week-3 main between `initGLAD` and the loop:
`interleaved` (24 floats) and the index array, then `points` and `colors`
(9 floats each), then the shader pair and its link. -/
def w3Setup : List Event :=
  [Event.vertexLoad (6 * 4),
   Event.indexLoad quadIndices (3 * 2),
   Event.vertexLoad 9,
   Event.vertexLoad 9,
   Event.shaderPart ShaderPartType.Vertex,
   Event.shaderPart ShaderPartType.Fragment,
   Event.shaderLink]

/-- The Week-3 `main` (first document of
`src/projects/Week3-Starter/src/main.cpp`): logger init; `initGLFW` or
exit 1; `initGLAD` or exit 1; geometry upload; shader pair; game loop;
logger shutdown and exit 0. -/
def week3Main (env : Env) (sc : Nat → Bool) (fuel : Nat) : MainResult :=
  let g0 := initialGlobals "INFR-1350U"
  let ini := initGLFW env g0
  if ini.1 = false then
    { trace := [Event.loggerStart], exitCode := some 1, globals := ini.2 }
  else if initGLAD env = false then
    { trace := [Event.loggerStart, Event.glfwInitialized],
      exitCode := some 1, globals := ini.2 }
  else
    let pre := [Event.loggerStart, Event.glfwInitialized,
                Event.gladInitialized] ++ w3Setup
    let lp := runLoop w3LoopBody sc 0 fuel
    match lp.2 with
    | some _ =>
      { trace := pre ++ lp.1 ++ [Event.loggerStop],
        exitCode := some 0, globals := ini.2 }
    | none =>
      { trace := pre ++ lp.1, exitCode := none, globals := ini.2 }

/-- Per-iteration events of the `part_000` game loop: `glDrawArrays`, then
two `glDrawElements` with the two index buffers' element counts, then
`glfwSwapBuffers`. -/
def p0LoopBody : List Event :=
  [Event.drawArrays 3,
   Event.drawElements p0_interleaved_ibo.GetElementCount,
   Event.drawElements p0_interleaved_ibo1.GetElementCount,
   Event.swapBuffers]

/-- Setup events of the `part_000` main: `points` and `colors` (9 floats
each), the first interleaved buffer and index array, the second
interleaved buffer and index array, then the shader pair and its link. -/
def p0Setup : List Event :=
  [Event.vertexLoad 9,
   Event.vertexLoad 9,
   Event.vertexLoad (6 * 4),
   Event.indexLoad quadIndices (3 * 2),
   Event.vertexLoad (6 * 4),
   Event.indexLoad quadIndices (3 * 2),
   Event.shaderPart ShaderPartType.Vertex,
   Event.shaderPart ShaderPartType.Fragment,
   Event.shaderLink]

/-- The `main` of `src/unnamed/part_000` (second document): same skeleton
as the Week-3 main with three VAOs. -/
def part0Main (env : Env) (sc : Nat → Bool) (fuel : Nat) : MainResult :=
  let g0 := initialGlobals "INFR-1350U"
  let ini := initGLFW env g0
  if ini.1 = false then
    { trace := [Event.loggerStart], exitCode := some 1, globals := ini.2 }
  else if initGLAD env = false then
    { trace := [Event.loggerStart, Event.glfwInitialized],
      exitCode := some 1, globals := ini.2 }
  else
    let pre := [Event.loggerStart, Event.glfwInitialized,
                Event.gladInitialized] ++ p0Setup
    let lp := runLoop p0LoopBody sc 0 fuel
    match lp.2 with
    | some _ =>
      { trace := pre ++ lp.1 ++ [Event.loggerStop],
        exitCode := some 0, globals := ini.2 }
    | none =>
      { trace := pre ++ lp.1, exitCode := none, globals := ini.2 }

/-- Per-iteration events of the Week-5 game loop: `vao4->Draw()` twice and
`glfwSwapBuffers`. -/
def w5LoopBody : List Event :=
  [Event.vaoDraw, Event.vaoDraw, Event.swapBuffers]

/-- Setup events of the Week-5 main: the shader pair and link come first,
then `ObjLoader::LoadFromFile("Dagger.obj")` loads the only geometry. -/
def w5Setup : List Event :=
  [Event.shaderPart ShaderPartType.Vertex,
   Event.shaderPart ShaderPartType.Fragment,
   Event.shaderLink,
   Event.objLoad "Dagger.obj"]

/-- The Week-5 `main` (second document of
`src/projects/Week3-Starter/src/main.cpp`): logger init; `initGLFW` or
exit 1; `initGLAD` or exit 1; shader pair; camera setup; OBJ load; game
loop; logger shutdown and exit 0. -/
def week5Main (env : Env) (sc : Nat → Bool) (fuel : Nat) : MainResult :=
  let g0 := initialGlobals "Mark Toufic - 100785011: Anthony Brown - 100748594"
  let ini := initGLFW env g0
  if ini.1 = false then
    { trace := [Event.loggerStart], exitCode := some 1, globals := ini.2 }
  else if initGLAD env = false then
    { trace := [Event.loggerStart, Event.glfwInitialized],
      exitCode := some 1, globals := ini.2 }
  else
    let pre := [Event.loggerStart, Event.glfwInitialized,
                Event.gladInitialized] ++ w5Setup
    let lp := runLoop w5LoopBody sc 0 fuel
    match lp.2 with
    | some _ =>
      { trace := pre ++ lp.1 ++ [Event.loggerStop],
        exitCode := some 0, globals := ini.2 }
    | none =>
      { trace := pre ++ lp.1, exitCode := none, globals := ini.2 }

/-! ### The camera and the Week-5 input handling -/

/-- Modelled from the spec: the `Camera` class (the "pinhole/orthographic
camera") is not under `src/`; it stores a position, whether orthographic
projection is enabled, and the orthographic vertical scale, and its
setters simply store the value passed.  A freshly created camera is a
pinhole (perspective) camera: orthographic projection is disabled. -/
structure Camera where
  position : Rat × Rat × Rat
  orthoEnabled : Bool
  orthoVerticalScale : Rat
deriving DecidableEq, Repr

/-- Modelled from the spec: `Camera::Create()` yields a perspective camera
(orthographic disabled); the values of the other fields before the first
setter call are immaterial to every claim. -/
def Camera.Create : Camera :=
  { position := (0, 0, 0), orthoEnabled := false, orthoVerticalScale := 4 }

/-- Modelled from the spec: `SetPosition` stores the position. -/
def Camera.SetPosition (c : Camera) (p : Rat × Rat × Rat) : Camera :=
  { c with position := p }

/-- Modelled from the spec: `SetOrthoEnabled` stores the flag. -/
def Camera.SetOrthoEnabled (c : Camera) (b : Bool) : Camera :=
  { c with orthoEnabled := b }

/-- Modelled from the spec: `SetOrthoVerticalScale` stores the scale. -/
def Camera.SetOrthoVerticalScale (c : Camera) (v : Rat) : Camera :=
  { c with orthoVerticalScale := v }

/-- The per-iteration mutable state the Week-5 game loop threads through
its input-handling block: the camera, `isButtonPressed`, and `isRotating`. -/
structure W5LoopState where
  camera : Camera
  isButtonPressed : Bool
  isRotating : Bool
deriving DecidableEq, Repr

/-- State on entry to the Week-5 game loop: the camera was created and
moved to `(0, 15, 15)` (`LookAt` only turns it), `isRotating = true`,
`isButtonPressed = false`. -/
def w5InitialState : W5LoopState :=
  { camera := Camera.Create.SetPosition (0, 15, 15),
    isButtonPressed := false,
    isRotating := true }

/-- The Week-5 input-handling block, run once at the top of every loop
iteration with `spaceDown = glfwGetKey(window, GLFW_KEY_SPACE)`:
if space is down and the flag is clear, set the flag, enable orthographic
mode, and set the vertical scale to `-20`; else if space is down and the
flag is set, clear the flag, disable orthographic mode, and reset the
position to `(0, 15, 15)`; otherwise do nothing. -/
def w5InputStep (spaceDown : Bool) (s : W5LoopState) : W5LoopState :=
  if spaceDown && s.isButtonPressed == false then
    { s with
      isButtonPressed := true,
      camera := (s.camera.SetOrthoEnabled true).SetOrthoVerticalScale (-20) }
  else if spaceDown && s.isButtonPressed == true then
    { s with
      isButtonPressed := false,
      camera := (s.camera.SetOrthoEnabled false).SetPosition (0, 15, 15) }
  else s

/-- The loop state at the top of iteration `n` of the Week-5 game loop,
where `key i` is the space-key sample of iteration `i`. -/
def stateAtW5 (key : Nat → Bool) : Nat → W5LoopState
  | 0 => w5InitialState
  | n + 1 => w5InputStep (key n) (stateAtW5 key n)

/-! ### The OBJ loader -/

/-- A parsed vertex position, exact rationals standing in for the floats. -/
structure VertexPos where
  x : Rat
  y : Rat
  z : Rat
deriving DecidableEq, Repr

/-- Modelled from the spec: the input to the "simple line-oriented parser"
is its file split into lines; each line is a `v`-style vertex line, an
`f`-style face line, or anything else the loader skips. -/
inductive ObjLine where
  | vertex (x y z : Rat)
  | face (a b c : Nat)
  | other
deriving DecidableEq, Repr

/-- The flat arrays a load produces, wrapped in a vertex array object. -/
structure LoadedVao where
  vertices : List VertexPos
  indexArray : List Nat
deriving DecidableEq, Repr

/-- Modelled from the spec: processing one line of the OBJ file appends to
the flat arrays accumulated so far: a vertex line appends one vertex, a
face line appends its three indices, any other line is skipped. -/
def objStep (acc : List VertexPos × List Nat) (l : ObjLine) :
    List VertexPos × List Nat :=
  match l with
  | .vertex x y z => (acc.1 ++ [⟨x, y, z⟩], acc.2)
  | .face a b c => (acc.1, acc.2 ++ [a, b, c])
  | .other => acc

/-- Modelled from the spec: `ObjLoader::LoadFromFile` (not under `src/`)
"reads its input file line by line in a single pass and produces flat
vertex and index arrays (wrapped in a vertex array object)": a single
left fold of `objStep` over the lines. -/
def ObjLoader.LoadFromFile (lines : List ObjLine) : LoadedVao :=
  let r := lines.foldl objStep ([], [])
  { vertices := r.1, indexArray := r.2 }

/-- The vertex a single line contributes, if any. -/
def lineVertex : ObjLine → Option VertexPos
  | .vertex x y z => some ⟨x, y, z⟩
  | _ => none

/-- The indices a single line contributes. -/
def lineIndexArray : ObjLine → List Nat
  | .face a b c => [a, b, c]
  | _ => []

/-! ### GLM matrices, `glm::rotate`, `glm::translate` and the per-frame
transform updates (reals standing in for the floats) -/

/-- A `glm::vec3`. -/
@[ext] structure GVec3 where
  x : ℝ
  y : ℝ
  z : ℝ

/-- A `glm::vec4`. -/
@[ext] structure GVec4 where
  x : ℝ
  y : ℝ
  z : ℝ
  w : ℝ

/-- A column-major `glm::mat4`: the four columns `m[0] .. m[3]`. -/
@[ext] structure GMat4 where
  c0 : GVec4
  c1 : GVec4
  c2 : GVec4
  c3 : GVec4

noncomputable section

/-- Componentwise `vec4 * scalar`. -/
def GVec4.smul (v : GVec4) (k : ℝ) : GVec4 :=
  ⟨v.x * k, v.y * k, v.z * k, v.w * k⟩

/-- Componentwise `vec4 + vec4`. -/
def GVec4.add (a b : GVec4) : GVec4 :=
  ⟨a.x + b.x, a.y + b.y, a.z + b.z, a.w + b.w⟩

/-- The identity `glm::mat4(1.0f)`. -/
def gmatIdentity : GMat4 :=
  ⟨⟨1, 0, 0, 0⟩, ⟨0, 1, 0, 0⟩, ⟨0, 0, 1, 0⟩, ⟨0, 0, 0, 1⟩⟩

/-- Product `mat4 * vec4`, computed column by column as GLM does. -/
def GMat4.mulVec (m : GMat4) (v : GVec4) : GVec4 :=
  (((m.c0.smul v.x).add (m.c1.smul v.y)).add (m.c2.smul v.z)).add
    (m.c3.smul v.w)

/-- Product `mat4 * mat4` as GLM computes it column by column. -/
def GMat4.mul (a b : GMat4) : GMat4 :=
  ⟨a.mulVec b.c0, a.mulVec b.c1, a.mulVec b.c2, a.mulVec b.c3⟩

/-- Embeds `glm::normalize` on a `vec3`: the vector scaled by the inverse square
root of its dot product with itself. -/
def normalize3 (v : GVec3) : GVec3 :=
  let invLen := 1 / Real.sqrt (v.x * v.x + v.y * v.y + v.z * v.z)
  ⟨v.x * invLen, v.y * invLen, v.z * invLen⟩

/-- Embeds `glm::rotate(m, angle, v)` exactly as in GLM's
`matrix_transform.inl`: build the 3x3 rotation block from
`c = cos(angle)`, `s = sin(angle)` and the normalized axis, then combine
the columns of `m` with it; the fourth column is `m[3]`. -/
def glmRotate (m : GMat4) (angle : ℝ) (v : GVec3) : GMat4 :=
  let c := Real.cos angle
  let s := Real.sin angle
  let axis := normalize3 v
  let tx := (1 - c) * axis.x
  let ty := (1 - c) * axis.y
  let tz := (1 - c) * axis.z
  let r00 := c + tx * axis.x
  let r01 := tx * axis.y + s * axis.z
  let r02 := tx * axis.z - s * axis.y
  let r10 := ty * axis.x - s * axis.z
  let r11 := c + ty * axis.y
  let r12 := ty * axis.z + s * axis.x
  let r20 := tz * axis.x + s * axis.y
  let r21 := tz * axis.y - s * axis.x
  let r22 := c + tz * axis.z
  ⟨((m.c0.smul r00).add (m.c1.smul r01)).add (m.c2.smul r02),
   ((m.c0.smul r10).add (m.c1.smul r11)).add (m.c2.smul r12),
   ((m.c0.smul r20).add (m.c1.smul r21)).add (m.c2.smul r22),
   m.c3⟩

/-- Embeds `glm::translate(m, v)`: same matrix with the fourth column replaced by
`m[0]*v.x + m[1]*v.y + m[2]*v.z + m[3]`. -/
def glmTranslate (m : GMat4) (v : GVec3) : GMat4 :=
  ⟨m.c0, m.c1, m.c2,
   (((m.c0.smul v.x).add (m.c1.smul v.y)).add (m.c2.smul v.z)).add m.c3⟩

/-- The canonical rotation about the z axis `(0, 0, 1)` by angle `t`, as
the spec's words describe the first transform: stated independently of
GLM's Rodrigues construction. -/
def rotationZ (t : ℝ) : GMat4 :=
  ⟨⟨Real.cos t, Real.sin t, 0, 0⟩,
   ⟨-Real.sin t, Real.cos t, 0, 0⟩,
   ⟨0, 0, 1, 0⟩,
   ⟨0, 0, 0, 1⟩⟩

/-- The canonical rotation about the y axis `(0, 1, 0)` by angle `t`. -/
def rotationY (t : ℝ) : GMat4 :=
  ⟨⟨Real.cos t, 0, -Real.sin t, 0⟩,
   ⟨0, 1, 0, 0⟩,
   ⟨Real.sin t, 0, Real.cos t, 0⟩,
   ⟨0, 0, 0, 1⟩⟩

/-- The canonical translation by `(x, y, z)`: the identity with the offset
in the fourth column. -/
def translationMat (x y z : ℝ) : GMat4 :=
  ⟨⟨1, 0, 0, 0⟩, ⟨0, 1, 0, 0⟩, ⟨0, 0, 1, 0⟩, ⟨x, y, z, 1⟩⟩

/-- In the `part_000` loop: `transform = glm::rotate(mat4(1.f), thisFrame, vec3(0, 0, 1))`. -/
def p0_transform (t : ℝ) : GMat4 :=
  glmRotate gmatIdentity t ⟨0, 0, 1⟩

/-- In the `part_000` loop: `transform2 = glm::translate(mat4(1.0f), vec3(0, 0.0f, sin(thisFrame)))`. -/
def p0_transform2 (t : ℝ) : GMat4 :=
  glmTranslate gmatIdentity ⟨0, 0, Real.sin t⟩

/-- In the `part_000` loop: `transform3 = glm::translate(mat4(1.0f), vec3(sin(thisFrame), 0.0f, 0.0f))`. -/
def p0_transform3 (t : ℝ) : GMat4 :=
  glmTranslate gmatIdentity ⟨Real.sin t, 0, 0⟩

/-- Week-5 loop: `if (isRotating) { transform = glm::rotate(mat4(1.0f), thisFrame, vec3(0, 0, 1)); }` —
the transform is updated only when `isRotating`, else it keeps its
previous value. -/
def w5TransformUpdate (isRot : Bool) (prev : GMat4) (t : ℝ) : GMat4 :=
  if isRot then glmRotate gmatIdentity t ⟨0, 0, 1⟩ else prev

/-- Week-5 loop: `transform2 = glm::rotate(mat4(1.0f), thisFrame, vec3(0, 1, 0)) * glm::translate(mat4(1.0f), vec3(10, 0.0f, sin(thisFrame)))`. -/
def w5_transform2 (t : ℝ) : GMat4 :=
  GMat4.mul (glmRotate gmatIdentity t ⟨0, 1, 0⟩)
    (glmTranslate gmatIdentity ⟨10, 0, Real.sin t⟩)

end

/-! ### Specification-side helpers for the ordering and termination claims -/

/-- Decides whether a list of phase labels is weakly increasing, starting
from lower bound `lo`: the formal reading of the spec's "fixed order" of
phases. -/
def sortedFrom (lo : Nat) : List Nat → Bool
  | [] => true
  | a :: rest => decide (lo ≤ a) && sortedFrom a rest

/-- The number of loop iterations before the should-close flag is first
seen set, scanning from index `i` with the given fuel: the iteration count
the render loop performs when the flag is eventually set. -/
def firstClose (sc : Nat → Bool) : Nat → Nat → Nat
  | _, 0 => 0
  | i, fuel + 1 => if sc i then 0 else firstClose sc (i + 1) fuel + 1

/-! ## Theorems -/

/-- In the Week-5 loop, `isButtonPressed` equals the camera's
orthographic-enabled flag at the top of every iteration. -/
theorem w5_flag_eq_ortho (key : Nat → Bool) :
    ∀ i, (stateAtW5 key i).isButtonPressed =
      (stateAtW5 key i).camera.orthoEnabled := by
  intro i
  induction i with
  | zero => rfl
  | succ n ih =>
    show (w5InputStep (key n) (stateAtW5 key n)).isButtonPressed =
      (w5InputStep (key n) (stateAtW5 key n)).camera.orthoEnabled
    by_cases hk : key n
    · cases hb : (stateAtW5 key n).isButtonPressed
      · simp [w5InputStep, hk, hb, Camera.SetOrthoEnabled,
          Camera.SetOrthoVerticalScale]
      · simp [w5InputStep, hk, hb, Camera.SetOrthoEnabled,
          Camera.SetPosition]
    · simp only [Bool.not_eq_true] at hk
      simp [w5InputStep, hk, ih]

/-- The Week-5 loop never writes `isRotating`, so it stays `true`. -/
theorem w5_isRotating (key : Nat → Bool) :
    ∀ i, (stateAtW5 key i).isRotating = true := by
  intro i
  induction i with
  | zero => rfl
  | succ n ih =>
    show (w5InputStep (key n) (stateAtW5 key n)).isRotating = true
    unfold w5InputStep
    split
    · exact ih
    · split
      · exact ih
      · exact ih

/-- C1: in every Week-5 loop iteration where the space key is down, the
camera's orthographic mode flips — it is enabled with vertical scale `-20`
if it was disabled, and disabled with the position reset to `(0, 15, 15)`
if it was enabled — and `isButtonPressed` always equals the camera's
orthographic-enabled state at the top of each iteration. -/
theorem claim_C1 (key : Nat → Bool) (i : Nat) :
    ((stateAtW5 key i).isButtonPressed =
      (stateAtW5 key i).camera.orthoEnabled) ∧
    (key i = true →
      ((stateAtW5 key (i + 1)).camera.orthoEnabled =
        ! (stateAtW5 key i).camera.orthoEnabled) ∧
      ((stateAtW5 key i).camera.orthoEnabled = false →
        (stateAtW5 key (i + 1)).camera.orthoEnabled = true ∧
        (stateAtW5 key (i + 1)).camera.orthoVerticalScale = -20) ∧
      ((stateAtW5 key i).camera.orthoEnabled = true →
        (stateAtW5 key (i + 1)).camera.orthoEnabled = false ∧
        (stateAtW5 key (i + 1)).camera.position = (0, 15, 15))) := by
  have inv := w5_flag_eq_ortho key i
  refine ⟨inv, fun hk => ?_⟩
  have hstep : stateAtW5 key (i + 1) =
      w5InputStep (key i) (stateAtW5 key i) := rfl
  cases ho : (stateAtW5 key i).camera.orthoEnabled with
  | false =>
    have hb : (stateAtW5 key i).isButtonPressed = false := by rw [inv, ho]
    rw [hstep]
    simp [w5InputStep, hk, hb, Camera.SetOrthoEnabled,
      Camera.SetOrthoVerticalScale]
  | true =>
    have hb : (stateAtW5 key i).isButtonPressed = true := by rw [inv, ho]
    rw [hstep]
    simp [w5InputStep, hk, hb, Camera.SetOrthoEnabled, Camera.SetPosition]

/-- Witness for C1: with the space key held, iteration 0 (camera in
perspective) flips it to orthographic with vertical scale `-20`, and the
flag matches the orthographic state. -/
theorem claim_C1_witness :
    ((fun _ => true : Nat → Bool) 0 = true) ∧
    ((stateAtW5 (fun _ => true) 0).isButtonPressed =
      (stateAtW5 (fun _ => true) 0).camera.orthoEnabled) ∧
    ((stateAtW5 (fun _ => true) 0).camera.orthoEnabled = false) ∧
    ((stateAtW5 (fun _ => true) 1).camera.orthoEnabled = true) ∧
    ((stateAtW5 (fun _ => true) 1).camera.orthoVerticalScale = -20) :=
  ⟨rfl, (claim_C1 (fun _ => true) 0).1, by decide,
    (((claim_C1 (fun _ => true) 0).2 rfl).2.1 (by decide)).1,
    (((claim_C1 (fun _ => true) 0).2 rfl).2.1 (by decide)).2⟩

/-- C9: `GlDebugMessage` is total and routes purely by severity — HIGH
logs an error, MEDIUM a warning, LOW and NOTIFICATION an info record, any
other severity logs nothing; the source only selects the bracketed tag
(API gives "DEBUG", unknown sources "OTHER"), and the type, id, length and
userParam arguments never affect the output. -/
theorem claim_C9 (source ty id severity len : Nat) (message : String)
    (userParam : Option Nat) :
    (severity = GL_DEBUG_SEVERITY_HIGH →
      GlDebugMessage source ty id severity len message userParam =
        [LogEvent.error (sourceTxtOf source) message]) ∧
    (severity = GL_DEBUG_SEVERITY_MEDIUM →
      GlDebugMessage source ty id severity len message userParam =
        [LogEvent.warn (sourceTxtOf source) message]) ∧
    (severity = GL_DEBUG_SEVERITY_LOW →
      GlDebugMessage source ty id severity len message userParam =
        [LogEvent.info (sourceTxtOf source) message]) ∧
    (severity = GL_DEBUG_SEVERITY_NOTIFICATION →
      GlDebugMessage source ty id severity len message userParam =
        [LogEvent.info (sourceTxtOf source) message]) ∧
    (severity ≠ GL_DEBUG_SEVERITY_HIGH →
      severity ≠ GL_DEBUG_SEVERITY_MEDIUM →
      severity ≠ GL_DEBUG_SEVERITY_LOW →
      severity ≠ GL_DEBUG_SEVERITY_NOTIFICATION →
      GlDebugMessage source ty id severity len message userParam = []) ∧
    (GlDebugMessage source ty id severity len message userParam =
      GlDebugMessage source 0 0 severity 0 message none) ∧
    (sourceTxtOf GL_DEBUG_SOURCE_API = "DEBUG") ∧
    (source ≠ GL_DEBUG_SOURCE_API →
      source ≠ GL_DEBUG_SOURCE_WINDOW_SYSTEM →
      source ≠ GL_DEBUG_SOURCE_SHADER_COMPILER →
      source ≠ GL_DEBUG_SOURCE_THIRD_PARTY →
      source ≠ GL_DEBUG_SOURCE_APPLICATION →
      sourceTxtOf source = "OTHER") := by
  refine ⟨?_, ?_, ?_, ?_, ?_, ?_, ?_, ?_⟩
  · intro h
    subst h
    simp [GlDebugMessage, GL_DEBUG_SEVERITY_HIGH, GL_DEBUG_SEVERITY_MEDIUM,
      GL_DEBUG_SEVERITY_LOW, GL_DEBUG_SEVERITY_NOTIFICATION]
  · intro h
    subst h
    simp [GlDebugMessage, GL_DEBUG_SEVERITY_HIGH, GL_DEBUG_SEVERITY_MEDIUM,
      GL_DEBUG_SEVERITY_LOW, GL_DEBUG_SEVERITY_NOTIFICATION]
  · intro h
    subst h
    simp [GlDebugMessage, GL_DEBUG_SEVERITY_HIGH, GL_DEBUG_SEVERITY_MEDIUM,
      GL_DEBUG_SEVERITY_LOW, GL_DEBUG_SEVERITY_NOTIFICATION]
  · intro h
    subst h
    simp [GlDebugMessage, GL_DEBUG_SEVERITY_HIGH, GL_DEBUG_SEVERITY_MEDIUM,
      GL_DEBUG_SEVERITY_LOW, GL_DEBUG_SEVERITY_NOTIFICATION]
  · intro h1 h2 h3 h4
    simp [GlDebugMessage, h1, h2, h3, h4]
  · rfl
  · rfl
  · intro h1 h2 h3 h4 h5
    simp [sourceTxtOf, h1, h2, h3, h4, h5]

/-- Witness for C9: a concrete HIGH-severity API message is logged as an
error with the "DEBUG" tag. -/
theorem claim_C9_witness :
    (GL_DEBUG_SEVERITY_HIGH = GL_DEBUG_SEVERITY_HIGH) ∧
    GlDebugMessage GL_DEBUG_SOURCE_API 5 7 GL_DEBUG_SEVERITY_HIGH 2 "oops"
      (some 3) = [LogEvent.error (sourceTxtOf GL_DEBUG_SOURCE_API) "oops"] :=
  ⟨rfl,
    (claim_C9 GL_DEBUG_SOURCE_API 5 7 GL_DEBUG_SEVERITY_HIGH 2 "oops"
      (some 3)).1 rfl⟩

/-- C10: the resize callback sets `windowSize` to exactly `(w, h)` and the
viewport to `(0, 0, w, h)`, and leaves the window pointer and the title
unchanged. -/
theorem claim_C10 (s : CallbackState) (w h : Int) :
    (GlfwWindowResizedCallback s w h).globals.windowSize = (w, h) ∧
    (GlfwWindowResizedCallback s w h).viewport = (0, 0, w, h) ∧
    (GlfwWindowResizedCallback s w h).globals.window = s.globals.window ∧
    (GlfwWindowResizedCallback s w h).globals.windowTitle =
      s.globals.windowTitle := by
  refine ⟨rfl, rfl, rfl, rfl⟩

/-- C8: `initGLFW` returns false exactly when `glfwInit` fails; when
`glfwInit` succeeds it returns true even if `glfwCreateWindow` returned
null, and `main` then continues past initialization with the global window
pointer still null. -/
theorem claim_C8 (env : Env) (g : Globals) (sc : Nat → Bool) (fuel : Nat) :
    ((initGLFW env g).1 = env.glfwInitOk) ∧
    (env.glfwInitOk = true →
      (initGLFW env g).1 = true ∧
      (initGLFW env g).2.window = env.windowHandle) ∧
    ((week3Main ⟨true, none, true⟩ sc fuel).globals.window = none ∧
      (week3Main ⟨true, none, true⟩ sc fuel).trace.any isLaterStep = true) := by
  refine ⟨?_, ?_, ?_⟩
  · cases h : env.glfwInitOk <;> simp [initGLFW, h]
  · intro h
    constructor
    · simp [initGLFW, h]
    · simp [initGLFW, h]
  · constructor
    · show (week3Main ⟨true, none, true⟩ sc fuel).globals.window = none
      unfold week3Main
      simp only [initGLFW, initGLAD]
      cases hlp : (runLoop w3LoopBody sc 0 fuel).2 <;> simp [hlp]
    · show (week3Main ⟨true, none, true⟩ sc fuel).trace.any isLaterStep = true
      unfold week3Main
      simp only [initGLFW, initGLAD]
      cases hlp : (runLoop w3LoopBody sc 0 fuel).2 <;>
        simp [hlp, w3Setup, isLaterStep, phaseOf]

/-- Witness for C8: with `glfwInit` succeeding but `glfwCreateWindow`
returning null, `initGLFW` still returns true and main's Week-3 run keeps
a null window pointer while uploading geometry. -/
theorem claim_C8_witness :
    ((⟨true, none, true⟩ : Env).glfwInitOk = true) ∧
    (initGLFW ⟨true, none, true⟩ (initialGlobals "INFR-1350U")).1 = true ∧
    (initGLFW ⟨true, none, true⟩ (initialGlobals "INFR-1350U")).2.window =
      none ∧
    (week3Main ⟨true, none, true⟩ (fun _ => true) 1).globals.window = none :=
  ⟨rfl,
    ((claim_C8 ⟨true, none, true⟩ (initialGlobals "INFR-1350U")
      (fun _ => true) 1).2.1 rfl).1,
    ((claim_C8 ⟨true, none, true⟩ (initialGlobals "INFR-1350U")
      (fun _ => true) 1).2.1 rfl).2,
    (claim_C8 ⟨true, none, true⟩ (initialGlobals "INFR-1350U")
      (fun _ => true) 1).2.2.1⟩

/-- A single left fold of `objStep` appends, in line order, each line's
vertex and index contributions to the accumulator. -/
theorem objStep_foldl (lines : List ObjLine) :
    ∀ acc : List VertexPos × List Nat,
      lines.foldl objStep acc =
        (acc.1 ++ lines.filterMap lineVertex,
         acc.2 ++ (lines.map lineIndexArray).flatten) := by
  induction lines with
  | nil => intro acc; simp
  | cons l rest ih =>
    intro acc
    cases l <;>
      simp [objStep, lineVertex, lineIndexArray, ih, List.append_assoc]

/-- C7: `ObjLoader::LoadFromFile` consumes its input line by line in one
pass — a single left fold — and the flat vertex and index arrays it wraps
are the in-order concatenation of each line's contribution. -/
theorem claim_C7 (lines : List ObjLine) :
    ObjLoader.LoadFromFile lines =
      { vertices := (lines.foldl objStep ([], [])).1,
        indexArray := (lines.foldl objStep ([], [])).2 } ∧
    (ObjLoader.LoadFromFile lines).vertices = lines.filterMap lineVertex ∧
    (ObjLoader.LoadFromFile lines).indexArray =
      (lines.map lineIndexArray).flatten := by
  refine ⟨rfl, ?_, ?_⟩
  · show (lines.foldl objStep ([], [])).1 = lines.filterMap lineVertex
    rw [objStep_foldl]
    simp
  · show (lines.foldl objStep ([], [])).2 = (lines.map lineIndexArray).flatten
    rw [objStep_foldl]
    simp

/-- Every Boolean predicate that holds of every body event holds of every
event the render loop emits. -/
theorem runLoop_all (body : List Event) (p : Event → Bool)
    (hb : body.all p = true) (sc : Nat → Bool) :
    ∀ fuel i, ((runLoop body sc i fuel).1).all p = true := by
  intro fuel
  induction fuel with
  | zero => intro i; rfl
  | succ n ih =>
    intro i
    show ((if sc i then ([], some 0)
      else
        let rest := runLoop body sc (i + 1) n
        (body ++ rest.1, rest.2.map (· + 1))).1).all p = true
    by_cases h : sc i
    · simp [h]
    · simp [h, List.all_append, hb, ih]

/-- The counts collected from the loop's `glDrawElements` events all
satisfy `p` when the counts in one body iteration do. -/
theorem runLoop_filterMap_all (body : List Event) (f : Event → Option Nat)
    (p : Nat → Bool) (hb : (body.filterMap f).all p = true) (sc : Nat → Bool) :
    ∀ fuel i, (((runLoop body sc i fuel).1).filterMap f).all p = true := by
  intro fuel
  induction fuel with
  | zero => intro i; rfl
  | succ n ih =>
    intro i
    show ((((if sc i then ([], some 0)
      else
        let rest := runLoop body sc (i + 1) n
        (body ++ rest.1, rest.2.map (· + 1)))).1).filterMap f).all p = true
    by_cases h : sc i
    · simp [h]
    · simp [h, List.filterMap_append, List.all_append, hb, ih]

/-- Loop events contain no occurrence counted by `q` when one body
iteration contains none. -/
theorem runLoop_countP_zero (body : List Event) (q : Event → Bool)
    (hb : body.countP q = 0) (sc : Nat → Bool) :
    ∀ fuel i, ((runLoop body sc i fuel).1).countP q = 0 := by
  intro fuel
  induction fuel with
  | zero => intro i; rfl
  | succ n ih =>
    intro i
    show (((if sc i then ([], some 0)
      else
        let rest := runLoop body sc (i + 1) n
        (body ++ rest.1, rest.2.map (· + 1))).1)).countP q = 0
    by_cases h : sc i
    · simp [h]
    · simp [h, List.countP_append, hb, ih]

/-- C2: if `glfwInit` or GLAD loading fails, each `main` returns exit code
1 having performed none of the later steps (no geometry upload, no shader
compilation, no render loop); when both succeed, each `main` proceeds to
those steps. -/
theorem claim_C2 (env : Env) (sc : Nat → Bool) (fuel : Nat) :
    ((env.glfwInitOk = false ∨ env.gladOk = false) →
      (week3Main env sc fuel).exitCode = some 1 ∧
      (week3Main env sc fuel).trace.all (fun e => ! isLaterStep e) = true ∧
      (part0Main env sc fuel).exitCode = some 1 ∧
      (part0Main env sc fuel).trace.all (fun e => ! isLaterStep e) = true ∧
      (week5Main env sc fuel).exitCode = some 1 ∧
      (week5Main env sc fuel).trace.all (fun e => ! isLaterStep e) = true) ∧
    (env.glfwInitOk = true → env.gladOk = true →
      (week3Main env sc fuel).trace.any isLaterStep = true ∧
      (part0Main env sc fuel).trace.any isLaterStep = true ∧
      (week5Main env sc fuel).trace.any isLaterStep = true) := by
  constructor
  · intro h
    rcases h with h | h
    · refine ⟨?_, ?_, ?_, ?_, ?_, ?_⟩ <;>
        simp [week3Main, part0Main, week5Main, initGLFW, h, isLaterStep,
          phaseOf]
    · by_cases hg : env.glfwInitOk = false
      · refine ⟨?_, ?_, ?_, ?_, ?_, ?_⟩ <;>
          simp [week3Main, part0Main, week5Main, initGLFW, hg, isLaterStep,
            phaseOf]
      · simp only [Bool.not_eq_false] at hg
        refine ⟨?_, ?_, ?_, ?_, ?_, ?_⟩ <;>
          simp [week3Main, part0Main, week5Main, initGLFW, initGLAD, hg, h,
            isLaterStep, phaseOf]
  · intro hg ha
    refine ⟨?_, ?_, ?_⟩
    · simp only [week3Main, initGLFW, initGLAD, hg, ha]
      cases hlp : (runLoop w3LoopBody sc 0 fuel).2 <;>
        simp [hlp, w3Setup, isLaterStep, phaseOf]
    · simp only [part0Main, initGLFW, initGLAD, hg, ha]
      cases hlp : (runLoop p0LoopBody sc 0 fuel).2 <;>
        simp [hlp, p0Setup, isLaterStep, phaseOf]
    · simp only [week5Main, initGLFW, initGLAD, hg, ha]
      cases hlp : (runLoop w5LoopBody sc 0 fuel).2 <;>
        simp [hlp, w5Setup, isLaterStep, phaseOf]

/-- Witness for C2: with `glfwInit` failing, the Week-3 main exits with 1
and its trace has no geometry, shader, or draw events. -/
theorem claim_C2_witness :
    ((⟨false, none, true⟩ : Env).glfwInitOk = false ∨
      (⟨false, none, true⟩ : Env).gladOk = false) ∧
    (week3Main ⟨false, none, true⟩ (fun _ => true) 1).exitCode = some 1 ∧
    (week3Main ⟨false, none, true⟩ (fun _ => true) 1).trace.all
      (fun e => ! isLaterStep e) = true :=
  ⟨Or.inl rfl,
    ((claim_C2 ⟨false, none, true⟩ (fun _ => true) 1).1 (Or.inl rfl)).1,
    ((claim_C2 ⟨false, none, true⟩ (fun _ => true) 1).1 (Or.inl rfl)).2.1⟩

/-- C4: the element count the loop passes to `glDrawElements` is exactly
the count previously passed to the bound index buffer's `LoadData` — 6,
the length of the hard-coded index array `{3, 0, 1, 3, 1, 2}` — and
`GetElementCount` always returns the loaded count. -/
theorem claim_C4 (env : Env) (sc : Nat → Bool) (fuel : Nat) :
    (∀ (idxs : List Nat) (n : Nat),
      (IndexBuffer.LoadData idxs n).GetElementCount = n) ∧
    w3_interleaved_ibo.GetElementCount = 6 ∧
    p0_interleaved_ibo.GetElementCount = 6 ∧
    p0_interleaved_ibo1.GetElementCount = 6 ∧
    quadIndices.length = 6 ∧
    ((week3Main env sc fuel).trace.filterMap drawElementsCount).all
      (fun n => n == 6) = true ∧
    ((part0Main env sc fuel).trace.filterMap drawElementsCount).all
      (fun n => n == 6) = true := by
  refine ⟨fun idxs n => rfl, rfl, rfl, rfl, rfl, ?_, ?_⟩
  · unfold week3Main
    by_cases h1 : (initGLFW env (initialGlobals "INFR-1350U")).1 = false
    · simp [h1, drawElementsCount]
    · simp only [h1]
      by_cases h2 : initGLAD env = false
      · simp [h2, drawElementsCount]
      · simp only [h2]
        have hl := runLoop_filterMap_all w3LoopBody drawElementsCount
          (fun n => n == 6) (by decide) sc fuel 0
        cases hlp : (runLoop w3LoopBody sc 0 fuel).2 <;>
          simp_all [w3Setup, List.filterMap_append, List.all_append,
            drawElementsCount]
  · unfold part0Main
    by_cases h1 : (initGLFW env (initialGlobals "INFR-1350U")).1 = false
    · simp [h1, drawElementsCount]
    · simp only [h1]
      by_cases h2 : initGLAD env = false
      · simp [h2, drawElementsCount]
      · simp only [h2]
        have hl := runLoop_filterMap_all p0LoopBody drawElementsCount
          (fun n => n == 6) (by decide) sc fuel 0
        cases hlp : (runLoop p0LoopBody sc 0 fuel).2 <;>
          simp_all [p0Setup, List.filterMap_append, List.all_append,
            drawElementsCount]

/-- If the should-close flag is set somewhere within the fuel, the render
loop exits after exactly `firstClose` iterations: the flag was unset at
every earlier iteration and set at the exit check. -/
theorem runLoop_firstClose (body : List Event) (sc : Nat → Bool) :
    ∀ fuel i, (∃ m, m < fuel ∧ sc (i + m) = true) →
      (runLoop body sc i fuel).2 = some (firstClose sc i fuel) ∧
      sc (i + firstClose sc i fuel) = true ∧
      ∀ j, j < firstClose sc i fuel → sc (i + j) = false := by
  intro fuel
  induction fuel with
  | zero =>
    intro i h
    obtain ⟨m, hm, _⟩ := h
    exact absurd hm (Nat.not_lt_zero m)
  | succ n ih =>
    intro i h
    by_cases hi : sc i
    · refine ⟨?_, ?_, ?_⟩
      · show (if sc i then (([] : List Event), some 0)
          else
            let rest := runLoop body sc (i + 1) n
            (body ++ rest.1, rest.2.map (· + 1))).2 =
          some (firstClose sc i (n + 1))
        simp [hi, firstClose]
      · simp [firstClose, hi]
      · intro j hj
        simp [firstClose, hi] at hj
    · obtain ⟨m, hm, hsc⟩ := h
      have hm0 : m ≠ 0 := by
        intro h0
        rw [h0] at hsc
        simp at hsc
        exact hi hsc
      obtain ⟨m', rfl⟩ := Nat.exists_eq_succ_of_ne_zero hm0
      have hex : ∃ m, m < n ∧ sc (i + 1 + m) = true := by
        refine ⟨m', Nat.lt_of_succ_lt_succ hm, ?_⟩
        have : i + 1 + m' = i + (m' + 1) := by omega
        rw [this]
        exact hsc
      obtain ⟨ih1, ih2, ih3⟩ := ih (i + 1) hex
      have hfc : firstClose sc i (n + 1) = firstClose sc (i + 1) n + 1 := by
        simp [firstClose, hi]
      refine ⟨?_, ?_, ?_⟩
      · show (if sc i then (([] : List Event), some 0)
          else
            let rest := runLoop body sc (i + 1) n
            (body ++ rest.1, rest.2.map (· + 1))).2 =
          some (firstClose sc i (n + 1))
        simp [hi, hfc, ih1]
      · rw [hfc]
        have : i + (firstClose sc (i + 1) n + 1) =
            i + 1 + firstClose sc (i + 1) n := by omega
        rw [this]
        exact ih2
      · intro j hj
        cases j with
        | zero =>
          simpa using (Bool.not_eq_true (sc i)).mp hi
        | succ j' =>
          rw [hfc] at hj
          have : i + (j' + 1) = i + 1 + j' := by omega
          rw [this]
          exact ih3 j' (Nat.lt_of_succ_lt_succ hj)

/-- C6: the render loop runs exactly as long as the should-close flag is
unset; when the flag is eventually set (within the fuel) the loop exits
after the least such iteration, after which `main` uninitializes the
logger and returns 0 — for both the Week-3 main and the `part_000` main. -/
theorem claim_C6 (env : Env) (sc : Nat → Bool) (fuel n : Nat)
    (hg : env.glfwInitOk = true) (ha : env.gladOk = true)
    (hn : sc n = true) (hf : n < fuel) :
    ((List.range (firstClose sc 0 fuel)).all (fun j => ! sc j) = true) ∧
    sc (firstClose sc 0 fuel) = true ∧
    (runLoop w3LoopBody sc 0 fuel).2 = some (firstClose sc 0 fuel) ∧
    (week3Main env sc fuel).exitCode = some 0 ∧
    (week3Main env sc fuel).trace.getLast? = some Event.loggerStop ∧
    (runLoop p0LoopBody sc 0 fuel).2 = some (firstClose sc 0 fuel) ∧
    (part0Main env sc fuel).exitCode = some 0 ∧
    (part0Main env sc fuel).trace.getLast? = some Event.loggerStop := by
  have hex : ∃ m, m < fuel ∧ sc (0 + m) = true := by
    refine ⟨n, hf, ?_⟩
    simpa using hn
  obtain ⟨h3w, hsc3, hbefore⟩ := runLoop_firstClose w3LoopBody sc fuel 0 hex
  obtain ⟨h3p, _, _⟩ := runLoop_firstClose p0LoopBody sc fuel 0 hex
  refine ⟨?_, ?_, h3w, ?_, ?_, h3p, ?_, ?_⟩
  · simp only [List.all_eq_true, List.mem_range]
    intro j hj
    have := hbefore j hj
    simpa using this
  · simpa using hsc3
  · simp only [week3Main, initGLFW, initGLAD, hg, ha]
    simp [h3w]
  · simp only [week3Main, initGLFW, initGLAD, hg, ha]
    simp only [Bool.true_eq_false, if_false, h3w]
    rw [List.getLast?_append_of_ne_nil _ (List.cons_ne_nil _ _)]
    rfl
  · simp only [part0Main, initGLFW, initGLAD, hg, ha]
    simp [h3p]
  · simp only [part0Main, initGLFW, initGLAD, hg, ha]
    simp only [Bool.true_eq_false, if_false, h3p]
    rw [List.getLast?_append_of_ne_nil _ (List.cons_ne_nil _ _)]
    rfl

/-- Witness for C6: with the flag first set at iteration 2 and fuel 5, the
Week-3 loop runs exactly 2 iterations and main exits with 0 after a final
logger shutdown. -/
theorem claim_C6_witness :
    ((fun k => decide (2 ≤ k) : Nat → Bool) 2 = true) ∧ 2 < 5 ∧
    (runLoop w3LoopBody (fun k => decide (2 ≤ k)) 0 5).2 = some 2 ∧
    (week3Main ⟨true, some 1, true⟩ (fun k => decide (2 ≤ k)) 5).exitCode =
      some 0 ∧
    (part0Main ⟨true, some 1, true⟩ (fun k => decide (2 ≤ k)) 5).exitCode =
      some 0 := by
  have h := claim_C6 ⟨true, some 1, true⟩ (fun k => decide (2 ≤ k)) 5 2
    rfl rfl (by decide) (by decide)
  refine ⟨rfl, by decide, ?_, h.2.2.2.1, h.2.2.2.2.2.2.1⟩
  have := h.2.2.1
  simpa using this

/-- Shape of a successful Week-3 run's trace: init events, setup, loop
events, and a final logger shutdown exactly when the loop exited. -/
theorem w3_trace_eq (env : Env) (sc : Nat → Bool) (fuel : Nat)
    (hg : env.glfwInitOk = true) (ha : env.gladOk = true) :
    (week3Main env sc fuel).trace =
      ([Event.loggerStart, Event.glfwInitialized, Event.gladInitialized] ++
        w3Setup) ++ (runLoop w3LoopBody sc 0 fuel).1 ++
        (if (runLoop w3LoopBody sc 0 fuel).2.isSome then [Event.loggerStop]
         else []) := by
  simp only [week3Main, initGLFW, initGLAD, hg, ha]
  cases hlp : (runLoop w3LoopBody sc 0 fuel).2 <;> simp [hlp]

/-- Shape of a successful `part_000` run's trace. -/
theorem p0_trace_eq (env : Env) (sc : Nat → Bool) (fuel : Nat)
    (hg : env.glfwInitOk = true) (ha : env.gladOk = true) :
    (part0Main env sc fuel).trace =
      ([Event.loggerStart, Event.glfwInitialized, Event.gladInitialized] ++
        p0Setup) ++ (runLoop p0LoopBody sc 0 fuel).1 ++
        (if (runLoop p0LoopBody sc 0 fuel).2.isSome then [Event.loggerStop]
         else []) := by
  simp only [part0Main, initGLFW, initGLAD, hg, ha]
  cases hlp : (runLoop p0LoopBody sc 0 fuel).2 <;> simp [hlp]

/-- Shape of a successful Week-5 run's trace. -/
theorem w5_trace_eq (env : Env) (sc : Nat → Bool) (fuel : Nat)
    (hg : env.glfwInitOk = true) (ha : env.gladOk = true) :
    (week5Main env sc fuel).trace =
      ([Event.loggerStart, Event.glfwInitialized, Event.gladInitialized] ++
        w5Setup) ++ (runLoop w5LoopBody sc 0 fuel).1 ++
        (if (runLoop w5LoopBody sc 0 fuel).2.isSome then [Event.loggerStop]
         else []) := by
  simp only [week5Main, initGLFW, initGLAD, hg, ha]
  cases hlp : (runLoop w5LoopBody sc 0 fuel).2 <;> simp [hlp]

/-- A phase list sorted from a bound is sorted from any smaller bound. -/
theorem sortedFrom_le (l : List Nat) :
    ∀ lo lo', lo' ≤ lo → sortedFrom lo l = true → sortedFrom lo' l = true := by
  cases l with
  | nil => intro lo lo' _ _; rfl
  | cons a rest =>
    intro lo lo' hle h
    simp only [sortedFrom, Bool.and_eq_true, decide_eq_true_eq] at h ⊢
    exact ⟨Nat.le_trans hle h.1, h.2⟩

/-- Prepending any run of phase-3 labels preserves sortedness from a bound
at most 3. -/
theorem sortedFrom_threes :
    ∀ l : List Nat, (∀ x ∈ l, x = 3) → ∀ lo, lo ≤ 3 →
      ∀ X, sortedFrom 3 X = true → sortedFrom lo (l ++ X) = true := by
  intro l
  induction l with
  | nil =>
    intro _ lo hlo X hX
    exact sortedFrom_le X 3 lo hlo hX
  | cons a rest ih =>
    intro h3 lo hlo X hX
    have ha : a = 3 := h3 a (List.mem_cons_self a rest)
    subst ha
    simp only [List.cons_append, sortedFrom, Bool.and_eq_true,
      decide_eq_true_eq]
    refine ⟨hlo, ?_⟩
    exact ih (fun x hx => h3 x (List.mem_cons_of_mem _ hx)) 3
      (Nat.le_refl 3) X hX

/-- Every phase label emitted by the render loop is 3, so the loop events
keep any phase list sorted, with or without the shutdown label behind
them. -/
theorem runLoop_sorted (body : List Event)
    (hb : body.all (fun e => phaseOf e == 3) = true) (sc : Nat → Bool)
    (fuel i lo : Nat) (hlo : lo ≤ 3) :
    sortedFrom lo ((((runLoop body sc i fuel).1).map phaseOf) ++ [4]) =
      true ∧
    sortedFrom lo (((runLoop body sc i fuel).1).map phaseOf) = true := by
  have hall := runLoop_all body (fun e => phaseOf e == 3) hb sc fuel i
  have h3 : ∀ x ∈ ((runLoop body sc i fuel).1).map phaseOf, x = 3 := by
    intro x hx
    simp only [List.mem_map] at hx
    obtain ⟨e, he, rfl⟩ := hx
    have := List.all_eq_true.mp hall e he
    simpa using this
  constructor
  · exact sortedFrom_threes _ h3 lo hlo [4] (by decide)
  · have := sortedFrom_threes _ h3 lo hlo [] (by decide)
    simpa using this

/-- Counterexample to C5 as stated: in the Week-5 project the shader pair
is compiled and linked before any geometry is uploaded (the OBJ file is
loaded after `Link()`), so the claimed phase order
initialization-geometry-shaders-loop is violated on a concrete run. -/
theorem claim_C5_counterexample :
    sortedFrom 0
      (((week5Main ⟨true, some 1, true⟩ (fun _ => true) 1).trace).map
        phaseOf) = false := by
  decide

/-- C5 (amended): every successful run initializes first and enters the
render loop last, exactly one vertex and one fragment shader part are
loaded and linked before any draw, and the Week-3 and `part_000` mains
upload geometry before compiling shaders — but the Week-5 main compiles
and links its shader pair before loading its OBJ geometry. -/
theorem claim_C5 (env : Env) (sc : Nat → Bool) (fuel : Nat)
    (hg : env.glfwInitOk = true) (ha : env.gladOk = true) :
    sortedFrom 0 ((week3Main env sc fuel).trace.map phaseOf) = true ∧
    sortedFrom 0 ((part0Main env sc fuel).trace.map phaseOf) = true ∧
    (week5Main env sc fuel).trace.take 7 =
      [Event.loggerStart, Event.glfwInitialized, Event.gladInitialized,
       Event.shaderPart ShaderPartType.Vertex,
       Event.shaderPart ShaderPartType.Fragment, Event.shaderLink,
       Event.objLoad "Dagger.obj"] ∧
    ((week5Main env sc fuel).trace.drop 7).all
      (fun e => (phaseOf e == 3) || (e == Event.loggerStop)) = true ∧
    (week3Main env sc fuel).trace.countP
      (fun e => e == Event.shaderPart ShaderPartType.Vertex) = 1 ∧
    (week3Main env sc fuel).trace.countP
      (fun e => e == Event.shaderPart ShaderPartType.Fragment) = 1 ∧
    (week3Main env sc fuel).trace.countP (fun e => e == Event.shaderLink) =
      1 ∧
    (part0Main env sc fuel).trace.countP
      (fun e => e == Event.shaderPart ShaderPartType.Vertex) = 1 ∧
    (part0Main env sc fuel).trace.countP
      (fun e => e == Event.shaderPart ShaderPartType.Fragment) = 1 ∧
    (part0Main env sc fuel).trace.countP (fun e => e == Event.shaderLink) =
      1 ∧
    (week5Main env sc fuel).trace.countP
      (fun e => e == Event.shaderPart ShaderPartType.Vertex) = 1 ∧
    (week5Main env sc fuel).trace.countP
      (fun e => e == Event.shaderPart ShaderPartType.Fragment) = 1 ∧
    (week5Main env sc fuel).trace.countP (fun e => e == Event.shaderLink) =
      1 := by
  have hw3 := w3_trace_eq env sc fuel hg ha
  have hp0 := p0_trace_eq env sc fuel hg ha
  have hw5 := w5_trace_eq env sc fuel hg ha
  refine ⟨?_, ?_, ?_, ?_, ?_, ?_, ?_, ?_, ?_, ?_, ?_, ?_, ?_⟩
  · rw [hw3]
    have hs := runLoop_sorted w3LoopBody (by decide) sc fuel 0 2
      (by omega)
    cases h : (runLoop w3LoopBody sc 0 fuel).2.isSome <;>
      simp [h, w3Setup, phaseOf, sortedFrom, List.map_append, hs.1, hs.2]
  · rw [hp0]
    have hs := runLoop_sorted p0LoopBody (by decide) sc fuel 0 2
      (by omega)
    cases h : (runLoop p0LoopBody sc 0 fuel).2.isSome <;>
      simp [h, p0Setup, phaseOf, sortedFrom, List.map_append, hs.1, hs.2]
  · rw [hw5, List.append_assoc, List.take_left'] <;> rfl
  · rw [hw5, List.append_assoc, List.drop_left']
    · have hl := runLoop_all w5LoopBody
        (fun e => (phaseOf e == 3) || (e == Event.loggerStop)) (by decide)
        sc fuel 0
      cases h : (runLoop w5LoopBody sc 0 fuel).2.isSome <;>
        simp [h, List.all_append, hl]
    · rfl
  · rw [hw3]
    have hz := runLoop_countP_zero w3LoopBody
      (fun e => e == Event.shaderPart ShaderPartType.Vertex) (by decide)
      sc fuel 0
    cases h : (runLoop w3LoopBody sc 0 fuel).2.isSome <;>
      simp [h, List.countP_append, hz, w3Setup, List.countP_cons]
  · rw [hw3]
    have hz := runLoop_countP_zero w3LoopBody
      (fun e => e == Event.shaderPart ShaderPartType.Fragment) (by decide)
      sc fuel 0
    cases h : (runLoop w3LoopBody sc 0 fuel).2.isSome <;>
      simp [h, List.countP_append, hz, w3Setup, List.countP_cons]
  · rw [hw3]
    have hz := runLoop_countP_zero w3LoopBody
      (fun e => e == Event.shaderLink) (by decide) sc fuel 0
    cases h : (runLoop w3LoopBody sc 0 fuel).2.isSome <;>
      simp [h, List.countP_append, hz, w3Setup, List.countP_cons]
  · rw [hp0]
    have hz := runLoop_countP_zero p0LoopBody
      (fun e => e == Event.shaderPart ShaderPartType.Vertex) (by decide)
      sc fuel 0
    cases h : (runLoop p0LoopBody sc 0 fuel).2.isSome <;>
      simp [h, List.countP_append, hz, p0Setup, List.countP_cons]
  · rw [hp0]
    have hz := runLoop_countP_zero p0LoopBody
      (fun e => e == Event.shaderPart ShaderPartType.Fragment) (by decide)
      sc fuel 0
    cases h : (runLoop p0LoopBody sc 0 fuel).2.isSome <;>
      simp [h, List.countP_append, hz, p0Setup, List.countP_cons]
  · rw [hp0]
    have hz := runLoop_countP_zero p0LoopBody
      (fun e => e == Event.shaderLink) (by decide) sc fuel 0
    cases h : (runLoop p0LoopBody sc 0 fuel).2.isSome <;>
      simp [h, List.countP_append, hz, p0Setup, List.countP_cons]
  · rw [hw5]
    have hz := runLoop_countP_zero w5LoopBody
      (fun e => e == Event.shaderPart ShaderPartType.Vertex) (by decide)
      sc fuel 0
    cases h : (runLoop w5LoopBody sc 0 fuel).2.isSome <;>
      simp [h, List.countP_append, hz, w5Setup, List.countP_cons]
  · rw [hw5]
    have hz := runLoop_countP_zero w5LoopBody
      (fun e => e == Event.shaderPart ShaderPartType.Fragment) (by decide)
      sc fuel 0
    cases h : (runLoop w5LoopBody sc 0 fuel).2.isSome <;>
      simp [h, List.countP_append, hz, w5Setup, List.countP_cons]
  · rw [hw5]
    have hz := runLoop_countP_zero w5LoopBody
      (fun e => e == Event.shaderLink) (by decide) sc fuel 0
    cases h : (runLoop w5LoopBody sc 0 fuel).2.isSome <;>
      simp [h, List.countP_append, hz, w5Setup, List.countP_cons]

/-- Witness for C5 (amended): on a concrete successful Week-5 run, the
first seven trace events are initialization, the shader pair, the link,
and only then the OBJ geometry load. -/
theorem claim_C5_witness :
    ((⟨true, some 1, true⟩ : Env).glfwInitOk = true) ∧
    ((⟨true, some 1, true⟩ : Env).gladOk = true) ∧
    (week5Main ⟨true, some 1, true⟩ (fun _ => true) 1).trace.take 7 =
      [Event.loggerStart, Event.glfwInitialized, Event.gladInitialized,
       Event.shaderPart ShaderPartType.Vertex,
       Event.shaderPart ShaderPartType.Fragment, Event.shaderLink,
       Event.objLoad "Dagger.obj"] :=
  ⟨rfl, rfl,
    (claim_C5 ⟨true, some 1, true⟩ (fun _ => true) 1 rfl rfl).2.2.1⟩

/-- Normalizing the unit z axis leaves it unchanged. -/
theorem normalize3_unitZ : normalize3 ⟨0, 0, 1⟩ = ⟨0, 0, 1⟩ := by
  simp only [normalize3]
  norm_num [Real.sqrt_one]

/-- Normalizing the unit y axis leaves it unchanged. -/
theorem normalize3_unitY : normalize3 ⟨0, 1, 0⟩ = ⟨0, 1, 0⟩ := by
  simp only [normalize3]
  norm_num [Real.sqrt_one]

/-- GLM's Rodrigues construction on the identity and axis `(0, 0, 1)`
yields the canonical z rotation. -/
theorem glmRotate_unitZ (t : ℝ) :
    glmRotate gmatIdentity t ⟨0, 0, 1⟩ = rotationZ t := by
  simp only [glmRotate, normalize3_unitZ, gmatIdentity, rotationZ,
    GVec4.smul, GVec4.add]
  ext <;> simp

/-- GLM's Rodrigues construction on the identity and axis `(0, 1, 0)`
yields the canonical y rotation. -/
theorem glmRotate_unitY (t : ℝ) :
    glmRotate gmatIdentity t ⟨0, 1, 0⟩ = rotationY t := by
  simp only [glmRotate, normalize3_unitY, gmatIdentity, rotationY,
    GVec4.smul, GVec4.add]
  ext <;> simp

/-- GLM's translate on the identity yields the canonical translation. -/
theorem glmTranslate_id (x y z : ℝ) :
    glmTranslate gmatIdentity ⟨x, y, z⟩ = translationMat x y z := by
  simp only [glmTranslate, gmatIdentity, translationMat, GVec4.smul,
    GVec4.add]
  ext <;> simp

/-- C3: in every render-loop iteration with timer value `t`, the first
model transform is set (in `part_000` always, in Week-5 because
`isRotating` stays true) to the pure rotation about the z axis `(0, 0, 1)`
by angle `t`; the other transforms are translations — `part_000`'s with
offsets `(0, 0, sin t)` and `(sin t, 0, 0)` — or, in Week-5, a y rotation
composed with a translation whose offset `(10, 0, sin t)` varies as
`sin t`. -/
theorem claim_C3 (key : Nat → Bool) (i : Nat) (prev : GMat4) (t : ℝ) :
    (stateAtW5 key i).isRotating = true ∧
    p0_transform t = rotationZ t ∧
    p0_transform2 t = translationMat 0 0 (Real.sin t) ∧
    p0_transform3 t = translationMat (Real.sin t) 0 0 ∧
    w5TransformUpdate (stateAtW5 key i).isRotating prev t = rotationZ t ∧
    w5_transform2 t =
      GMat4.mul (rotationY t) (translationMat 10 0 (Real.sin t)) := by
  refine ⟨w5_isRotating key i, ?_, ?_, ?_, ?_, ?_⟩
  · exact glmRotate_unitZ t
  · exact glmTranslate_id 0 0 (Real.sin t)
  · exact glmTranslate_id (Real.sin t) 0 0
  · rw [w5_isRotating key i]
    simp only [w5TransformUpdate, if_true]
    exact glmRotate_unitZ t
  · simp only [w5_transform2, glmRotate_unitY, glmTranslate_id]

end Otter
